import Mathlib

/-!
Verification of the Detected-Plane Mesh Synchronizer of `src/index_6.ts`
(`createPlaneMeshesFromXrPlane`, `initPolygon` and the observer callbacks they
register) against its natural-language specification.

The embedding is a direct shallow translation of the handler code:

* `this._planes` is a JavaScript array indexed by the numeric plane id; it may
  be sparse (holes read as `undefined`).  We model it as `List (Option Mesh)`
  together with JavaScript-faithful `jsGet` / `jsSet` / `jsPopAll` operations.
* Object identity of meshes and materials (needed for "same object" /
  "reference-equal" statements of the spec) is modelled by a `uid` drawn from
  an allocation counter carried in the state.
* `Color3.Random()` is modelled as reading the next value of an ambient colour
  stream `cs : Nat → Nat` at an index counter carried in the state.
* A JavaScript `TypeError` (e.g. reading `.material` of `undefined`, or `.x`
  of a `null` outline entry) makes a handler return `none`.
* `mesh.dispose(doNotRecurse?, disposeMaterialAndTextures = false)` marks the
  mesh disposed; only when the second flag is `true` would the material be
  disposed as well (no call site in this file passes `true`).  Disposed
  material identities are accumulated in `disposedMats`.
-/

namespace XrSync

/-- The engine's `Vector3` (components modelled as integers; no claim depends
on real-number arithmetic). -/
structure Vector3 where
  x : Int
  y : Int
  z : Int
deriving DecidableEq

/-- The engine's `Quaternion`. -/
structure Quat where
  qw : Int
  qx : Int
  qy : Int
  qz : Int
deriving DecidableEq

/-- The decomposed content of `plane.transformationMatrix`:
`transformationMatrix.decompose(scaling, rotationQuaternion, position)` writes
exactly these three components into the mesh's transform fields. -/
structure Transform where
  scaling : Vector3
  rotation : Quat
  position : Vector3
deriving DecidableEq

/-- `IWebXRPlane` as consumed by the handlers.  `polygonDefinition` entries may
be `null`/`undefined` during transient updates (`none` here); `orientation` is
the string `plane.xrPlane.orientation` used as the mesh name. -/
structure DetectedPlane where
  id : Nat
  polygonDefinition : List (Option Vector3)
  orientation : String
  transformationMatrix : Transform
deriving DecidableEq

/-- The engine's `StandardMaterial` as configured by the add handler.  `uid`
models JavaScript object identity. -/
structure StandardMaterial where
  uid : Nat
  alpha : Rat
  diffuseColor : Nat
deriving DecidableEq

/-- The mesh produced by `PolygonMeshBuilder.build` and then configured by
`initPolygon`.  `uid` models JavaScript object identity; `geomPoints` is the
`Vector2` list handed to the builder; `depth` is `build`'s second argument. -/
structure Mesh where
  uid : Nat
  name : String
  geomPoints : List (Int × Int)
  depth : Rat
  hasNormals : Bool
  material : Option StandardMaterial
  scaling : Vector3
  rotationQuaternion : Quat
  position : Vector3
  checkCollisions : Bool
  receiveShadows : Bool
  isDisposed : Bool
deriving DecidableEq

/-- The mutable state owned by `createPlaneMeshesFromXrPlane`:
the `this._planes` array, the single closure variable `mat` shared by every
handler, the allocation counter for object identities, the index into the
random-colour stream, and the set of disposed material identities. -/
structure XrState where
  planes : List (Option Mesh)
  mat : Option StandardMaterial
  fresh : Nat
  rngIdx : Nat
  disposedMats : List Nat
deriving DecidableEq

/-- JavaScript array read `a[i]`: a hole or an out-of-bounds index reads as
`undefined` (`none`). -/
def jsGet {α : Type} : List (Option α) → Nat → Option α
  | [], _ => none
  | o :: _, 0 => o
  | _ :: t, n + 1 => jsGet t n

/-- JavaScript array write `a[i] = v`: writing past the end extends the array
with holes. -/
def jsSet {α : Type} : List (Option α) → Nat → α → List (Option α)
  | [], 0, v => [some v]
  | [], n + 1, v => none :: jsSet [] n v
  | _ :: t, 0, v => some v :: t
  | o :: t, n + 1, v => o :: jsSet t n v

/-- `while (a.pop());` — `pop` removes and returns the last element; the loop
stops as soon as it returns a falsy value, i.e. after removing the longest
fully-populated suffix plus the one hole (if any) whose `undefined` stopped
the loop. -/
def jsPopAll {α : Type} (a : List (Option α)) : List (Option α) :=
  (List.tail (List.dropWhile Option.isSome a.reverse)).reverse

/-- The effect of `mesh.dispose(...)` on the mesh object itself. -/
def disposeMesh (m : Mesh) : Mesh := { m with isDisposed := true }

/-- A call `mesh.dispose(doNotRecurse, disposeMaterialAndTextures)` on the
mesh stored at index `i`: the stored object is marked disposed, and the
material is disposed only when the flag is set. -/
def disposeCall (st : XrState) (i : Nat) (m : Mesh)
    (disposeMaterialAndTextures : Bool) : XrState :=
  let planes1 := jsSet st.planes i (disposeMesh m)
  if disposeMaterialAndTextures then
    { st with planes := planes1
              disposedMats := (m.material.map (·.uid)).toList ++ st.disposedMats }
  else { st with planes := planes1 }

/-- `new Vector2(p.x, p.z)` applied to one outline point. -/
def projPt (v : Vector3) : Int × Int := (v.x, v.z)

/-- `plane.polygonDefinition.map((p) => new Vector2(p.x, p.z))`: a JavaScript
`.map` that throws a `TypeError` (here: `none`) on the first `null` entry. -/
def mapNonNull : List (Option Vector3) → Option (List (Int × Int))
  | [] => some []
  | none :: _ => none
  | some v :: t => (mapNonNull t).map (fun ps => projPt v :: ps)

/-- `initPolygon` returns the built polygon, but also the state after its two
write effects (`this._planes[plane.id] = polygon`, allocation) and the plane
record after the `push` that mutates `plane.polygonDefinition` in place. -/
structure BuildResult where
  polygon : Mesh
  state : XrState
  planeAfter : DetectedPlane
deriving DecidableEq

/-- `initPolygon(plane, mat?)` of `src/index_6.ts`:
`plane.polygonDefinition.push(plane.polygonDefinition[0])` (mutating the
detector-owned record; on an empty array this pushes `undefined`), then
`new PolygonMeshBuilder(plane.xrPlane.orientation, mapped points, scene)` and
`build(false, 0.01)`, `createNormals(false)`, optional material assignment,
`checkCollisions`/`receiveShadows`, transform decomposition, and finally
`this._planes[plane.id] = polygon`.  The engine's `build` is external; it
triangulates whatever points it is given and always returns a mesh (it has no
degenerate-input failure), so the only failure here is the `TypeError` of
mapping a `null` point. -/
def initPolygon (st : XrState) (plane : DetectedPlane)
    (m : Option StandardMaterial) : Option BuildResult :=
  let pts := plane.polygonDefinition ++ [jsGet plane.polygonDefinition 0]
  let planeAfter := { plane with polygonDefinition := pts }
  match mapNonNull pts with
  | none => none
  | some ps =>
    let polygon : Mesh :=
      { uid := st.fresh
        name := plane.orientation
        geomPoints := ps
        depth := 1 / 100
        hasNormals := true
        material := m
        scaling := plane.transformationMatrix.scaling
        rotationQuaternion := plane.transformationMatrix.rotation
        position := plane.transformationMatrix.position
        checkCollisions := true
        receiveShadows := true
        isDisposed := false }
    some { polygon := polygon
           state := { st with fresh := st.fresh + 1
                              planes := jsSet st.planes plane.id polygon }
           planeAfter := planeAfter }

/-- The `onPlaneAddedObservable` handler: `mat = new StandardMaterial(...)`,
`mat.alpha = 0.35`, `mat.diffuseColor = Color3.Random()`, then
`initPolygon(plane, mat)`.  `cs` is the colour stream behind
`Color3.Random()`. -/
def onPlaneAdded (cs : Nat → Nat) (st : XrState) (plane : DetectedPlane) :
    Option XrState :=
  let m : StandardMaterial :=
    { uid := st.fresh, alpha := 35 / 100, diffuseColor := cs st.rngIdx }
  let st1 : XrState :=
    { st with fresh := st.fresh + 1, rngIdx := st.rngIdx + 1, mat := some m }
  (initPolygon st1 plane (some m)).map (·.state)

/-- The `onPlaneUpdatedObservable` handler, in the source's exact order:
read `this._planes[plane.id].material` (a `TypeError` when the id has no
entry); if the material is truthy, store it in the shared closure variable
`mat` and `dispose(false, false)` the stored mesh; only then test
`plane.polygonDefinition.some(p => !p)` and either return or call
`initPolygon(plane, mat!)`. -/
def onPlaneUpdated (st : XrState) (plane : DetectedPlane) : Option XrState :=
  match jsGet st.planes plane.id with
  | none => none
  | some mesh =>
    let st1 : XrState :=
      match mesh.material with
      | some _ => { disposeCall st plane.id mesh false with mat := mesh.material }
      | none => st
    if plane.polygonDefinition.any Option.isNone then some st1
    else (initPolygon st1 plane st1.mat).map (·.state)

/-- The `onPlaneRemovedObservable` handler: if an entry exists,
`this._planes[plane.id].dispose()` (default flags: material not disposed);
the mapping entry itself is never deleted. -/
def onPlaneRemoved (st : XrState) (plane : DetectedPlane) : Option XrState :=
  match jsGet st.planes plane.id with
  | none => some st
  | some mesh => some (disposeCall st plane.id mesh false)

/-- The `onXRSessionInit` handler:
`this._planes.forEach((plane) => plane.dispose());` followed by
`while (this._planes.pop());`. -/
def onXRSessionInit (st : XrState) : XrState :=
  { st with planes := jsPopAll (st.planes.map (Option.map disposeMesh)) }

/-- The notification kinds delivered to the handlers. -/
inductive XrEvent where
  | added : DetectedPlane → XrEvent
  | updated : DetectedPlane → XrEvent
  | removed : DetectedPlane → XrEvent
  | sessionInit : XrEvent
deriving DecidableEq

/-- Dispatch of one notification to its handler. -/
def step (cs : Nat → Nat) (st : XrState) : XrEvent → Option XrState
  | .added p => onPlaneAdded cs st p
  | .updated p => onPlaneUpdated st p
  | .removed p => onPlaneRemoved st p
  | .sessionInit => some (onXRSessionInit st)

/-- Processing a sequence of notifications; a thrown `TypeError` (`none`)
aborts the run. -/
def run (cs : Nat → Nat) (st : XrState) : List XrEvent → Option XrState
  | [] => some st
  | e :: es =>
    match step cs st e with
    | none => none
    | some st1 => run cs st1 es

/-- The state right after `createPlaneMeshesFromXrPlane` wires the handlers:
`this._planes = []` and the closure variable `mat` not yet assigned. -/
def initialState : XrState :=
  { planes := [], mat := none, fresh := 0, rngIdx := 0, disposedMats := [] }

/-- A well-formed outline: nonempty and without missing/`null` points. -/
def GoodOutline (p : DetectedPlane) : Prop :=
  p.polygonDefinition ≠ [] ∧ ∀ o ∈ p.polygonDefinition, o.isSome

instance (p : DetectedPlane) : Decidable (GoodOutline p) := by
  unfold GoodOutline; infer_instance

/-- The plane id an event refers to (`none` for the session notification). -/
def eventId : XrEvent → Option Nat
  | .added p => some p.id
  | .updated p => some p.id
  | .removed p => some p.id
  | .sessionInit => none

/-- A sequence of update notifications for id `i`, each with a nonempty
outline (the shape of a well-formed detector stream between an add and a
remove for that id; a null-bearing outline is still allowed). -/
def UpdatesFor (i : Nat) (evs : List XrEvent) : Prop :=
  ∀ e ∈ evs, ∃ p, e = XrEvent.updated p ∧ p.id = i ∧ p.polygonDefinition ≠ []

/-! ### Concrete fixtures used by counterexamples and witnesses -/

/-- A concrete colour stream standing in for `Color3.Random()`. -/
def csId : Nat → Nat := fun n => n

def t0 : Transform := ⟨⟨1, 1, 1⟩, ⟨1, 0, 0, 0⟩, ⟨0, 0, 0⟩⟩

/-- A well-formed triangular outline. -/
def goodPts : List (Option Vector3) :=
  [some ⟨0, 0, 0⟩, some ⟨1, 0, 0⟩, some ⟨0, 0, 1⟩]

/-- A detected plane with id 0 and a well-formed outline. -/
def pA : DetectedPlane :=
  { id := 0, polygonDefinition := goodPts, orientation := "Horizontal"
    transformationMatrix := t0 }

/-- A detected plane with id 2 (leaving a hole at index 1 of `_planes`). -/
def pB : DetectedPlane :=
  { id := 2, polygonDefinition := goodPts, orientation := "Horizontal"
    transformationMatrix := t0 }

/-- An update for id 0 whose outline contains a missing/`null` point. -/
def pStale : DetectedPlane :=
  { id := 0, polygonDefinition := [some ⟨0, 0, 0⟩, none]
    orientation := "Horizontal", transformationMatrix := t0 }

/-- An update for id 0 whose outline is empty (the spec's data model allows
empty outlines during transient updates). -/
def pEmpty : DetectedPlane :=
  { id := 0, polygonDefinition := []
    orientation := "Horizontal", transformationMatrix := t0 }

/-- A second well-formed outline update for id 0. -/
def pA2 : DetectedPlane :=
  { id := 0, polygonDefinition := [some ⟨0, 0, 0⟩, some ⟨2, 0, 0⟩, some ⟨0, 0, 2⟩]
    orientation := "Horizontal", transformationMatrix := t0 }

/-- A two-point (degenerate) outline for id 0. -/
def p2 : DetectedPlane :=
  { id := 0, polygonDefinition := [some ⟨0, 0, 0⟩, some ⟨1, 0, 1⟩]
    orientation := "Horizontal", transformationMatrix := t0 }

/-- A mesh installed for id 0, with a material of identity 5. -/
def mesh0 : Mesh :=
  { uid := 7, name := "Horizontal", geomPoints := [(0, 0), (1, 0), (0, 1), (0, 0)]
    depth := 1 / 100, hasNormals := true
    material := some { uid := 5, alpha := 35 / 100, diffuseColor := 3 }
    scaling := ⟨1, 1, 1⟩, rotationQuaternion := ⟨1, 0, 0, 0⟩, position := ⟨0, 0, 0⟩
    checkCollisions := true, receiveShadows := true, isDisposed := false }

/-- A state in which id 0 is tracked with `mesh0` installed. -/
def stTracked : XrState :=
  { planes := [some mesh0], mat := none, fresh := 8, rngIdx := 1, disposedMats := [] }

/-! ### Helper lemmas about the JavaScript array operations -/

theorem jsGet_jsSet_self {α : Type} (a : List (Option α)) (i : Nat) (v : α) :
    jsGet (jsSet a i v) i = some v := by
  induction a generalizing i with
  | nil =>
    induction i with
    | zero => rfl
    | succ n ih => simpa [jsSet, jsGet] using ih
  | cons o t ih =>
    cases i with
    | zero => rfl
    | succ n => simpa [jsSet, jsGet] using ih n

theorem jsGet_jsSet_ne {α : Type} (a : List (Option α)) (i j : Nat) (v : α)
    (h : i ≠ j) : jsGet (jsSet a i v) j = jsGet a j := by
  induction a generalizing i j with
  | nil =>
    induction i generalizing j with
    | zero =>
      cases j with
      | zero => exact absurd rfl h
      | succ m => rfl
    | succ n ih =>
      cases j with
      | zero => rfl
      | succ m => simpa [jsSet, jsGet] using ih m (by omega)
  | cons o t ih =>
    cases i with
    | zero =>
      cases j with
      | zero => exact absurd rfl h
      | succ m => rfl
    | succ n =>
      cases j with
      | zero => rfl
      | succ m => simpa [jsSet, jsGet] using ih n m (by omega)

theorem jsSet_jsSet {α : Type} (a : List (Option α)) (i : Nat) (v w : α) :
    jsSet (jsSet a i v) i w = jsSet a i w := by
  induction a generalizing i with
  | nil =>
    induction i with
    | zero => rfl
    | succ n ih => simpa [jsSet] using ih
  | cons o t ih =>
    cases i with
    | zero => rfl
    | succ n => simpa [jsSet] using ih n

theorem mem_of_jsGet {α : Type} (a : List (Option α)) (i : Nat) (m : α)
    (h : jsGet a i = some m) : some m ∈ a := by
  induction a generalizing i with
  | nil => simp [jsGet] at h
  | cons o t ih =>
    cases i with
    | zero => exact h ▸ List.mem_cons_self _ _
    | succ n => exact List.mem_cons_of_mem _ (ih n h)

theorem mem_of_mem_jsPopAll {α : Type} (a : List (Option α)) (x : Option α)
    (h : x ∈ jsPopAll a) : x ∈ a := by
  unfold jsPopAll at h
  have h1 := List.mem_reverse.1 h
  have h2 : x ∈ List.dropWhile Option.isSome a.reverse :=
    (List.tail_sublist _).subset h1
  exact List.mem_reverse.1 ((List.dropWhile_sublist _).subset h2)

theorem jsPopAll_of_dense {α : Type} (a : List (Option α))
    (h : ∀ o ∈ a, o.isSome) : jsPopAll a = [] := by
  unfold jsPopAll
  have : List.dropWhile Option.isSome a.reverse = [] :=
    List.dropWhile_eq_nil_iff.mpr (fun x hx => h x (List.mem_reverse.1 hx))
  simp [this]

/-! ### Helper lemmas about the builder and the handlers -/

theorem mapNonNull_of_all_some (l : List (Option Vector3))
    (h : ∀ o ∈ l, o.isSome) : ∃ ps, mapNonNull l = some ps := by
  induction l with
  | nil => exact ⟨[], rfl⟩
  | cons o t ih =>
    cases o with
    | none => simpa using h none (List.mem_cons_self _ _)
    | some v =>
      obtain ⟨ps, hps⟩ := ih fun x hx => h x (List.mem_cons_of_mem _ hx)
      exact ⟨projPt v :: ps, by simp [mapNonNull, hps]⟩

/-- Every field of a successful `initPolygon` call, read off from the
definition. -/
theorem initPolygon_inv (st : XrState) (p : DetectedPlane)
    (m : Option StandardMaterial) (b : BuildResult)
    (h : initPolygon st p m = some b) :
    b.state.planes = jsSet st.planes p.id b.polygon ∧
    b.state.fresh = st.fresh + 1 ∧
    b.state.mat = st.mat ∧
    b.state.rngIdx = st.rngIdx ∧
    b.state.disposedMats = st.disposedMats ∧
    b.polygon.uid = st.fresh ∧
    b.polygon.material = m ∧
    b.polygon.depth = 1 / 100 ∧
    b.polygon.hasNormals = true ∧
    b.polygon.isDisposed = false ∧
    b.polygon.checkCollisions = true ∧
    b.polygon.receiveShadows = true ∧
    b.polygon.scaling = p.transformationMatrix.scaling ∧
    b.polygon.rotationQuaternion = p.transformationMatrix.rotation ∧
    b.polygon.position = p.transformationMatrix.position ∧
    b.polygon.name = p.orientation ∧
    mapNonNull (p.polygonDefinition ++ [jsGet p.polygonDefinition 0])
      = some b.polygon.geomPoints ∧
    b.planeAfter.polygonDefinition
      = p.polygonDefinition ++ [jsGet p.polygonDefinition 0] := by
  simp only [initPolygon] at h
  cases hm : mapNonNull (p.polygonDefinition ++ [jsGet p.polygonDefinition 0]) with
  | none => rw [hm] at h; exact absurd h (by simp)
  | some ps =>
    rw [hm] at h
    simp only [Option.some.injEq] at h
    subst h
    refine ⟨rfl, rfl, rfl, rfl, rfl, rfl, rfl, rfl, rfl, rfl, rfl, rfl, rfl,
      rfl, rfl, rfl, ?_, rfl⟩
    rfl

/-- With a well-formed outline the closed point list has no `null` entry, so
`initPolygon` succeeds. -/
theorem initPolygon_of_good (st : XrState) (p : DetectedPlane)
    (m : Option StandardMaterial) (hg : GoodOutline p) :
    ∃ b, initPolygon st p m = some b := by
  obtain ⟨hne, hall⟩ := hg
  have hclosed : ∀ o ∈ p.polygonDefinition ++ [jsGet p.polygonDefinition 0],
      o.isSome := by
    intro o ho
    rcases List.mem_append.1 ho with h | h
    · exact hall o h
    · rcases List.mem_singleton.1 h with rfl
      cases hpd : p.polygonDefinition with
      | nil => exact absurd hpd hne
      | cons a t =>
        have := hall a (by rw [hpd]; exact List.mem_cons_self _ _)
        simpa [jsGet, hpd] using this
  obtain ⟨ps, hps⟩ := mapNonNull_of_all_some _ hclosed
  cases hip : initPolygon st p m with
  | some b => exact ⟨b, rfl⟩
  | none =>
    exfalso
    simp only [initPolygon] at hip
    rw [hps] at hip
    exact absurd hip (by simp)

/-- The add handler on a well-formed outline: it always succeeds, installs a
new mesh for the plane's id, and gives it the freshly constructed material
(alpha 0.35, next random colour), which it also leaves in the shared closure
variable `mat`. -/
theorem onPlaneAdded_good (cs : Nat → Nat) (st : XrState) (p : DetectedPlane)
    (hg : GoodOutline p) :
    ∃ st2 m2, onPlaneAdded cs st p = some st2 ∧
      jsGet st2.planes p.id = some m2 ∧
      m2.material
        = some { uid := st.fresh, alpha := 35 / 100, diffuseColor := cs st.rngIdx } ∧
      m2.uid = st.fresh + 1 ∧
      m2.isDisposed = false ∧
      st2.fresh = st.fresh + 2 ∧
      st2.rngIdx = st.rngIdx + 1 ∧
      st2.mat
        = some { uid := st.fresh, alpha := 35 / 100, diffuseColor := cs st.rngIdx } := by
  simp only [onPlaneAdded]
  obtain ⟨b, hb⟩ := initPolygon_of_good
    { planes := st.planes
      mat := some { uid := st.fresh, alpha := 35 / 100, diffuseColor := cs st.rngIdx }
      fresh := st.fresh + 1, rngIdx := st.rngIdx + 1, disposedMats := st.disposedMats }
    p (some { uid := st.fresh, alpha := 35 / 100, diffuseColor := cs st.rngIdx }) hg
  obtain ⟨hplanes, hfresh, hmat, hrng, -, huid, hpmat, -⟩ := initPolygon_inv _ _ _ _ hb
  refine ⟨b.state, b.polygon, ?_, ?_, hpmat, huid, ?_, ?_, ?_, ?_⟩
  · rw [hb]; rfl
  · rw [hplanes]; exact jsGet_jsSet_self _ _ _
  · obtain ⟨-, -, -, -, -, -, -, -, -, hdisp, -⟩ := initPolygon_inv _ _ _ _ hb
    exact hdisp
  · rw [hfresh]
  · rw [hrng]
  · rw [hmat]

/-! ### C1 — stale update on a tracked id -/

/-- C1 counterexample.  The claim states that an `Updated(id, outline with a
null point)` on a Tracked id leaves the Registry's mesh for that id "the same
object, undisposed and unchanged".  Processing `Added(pA)` installs the mesh
with identity 1 for id 0; the stale update `pStale` then leaves that same
object installed (uid 1) but with `isDisposed = true`: the handler runs
`this._planes[plane.id].dispose(false, false)` before it tests the outline
for null points, so the mesh is not left undisposed. -/
theorem c1_counterexample :
    ((run csId initialState [XrEvent.added pA, XrEvent.updated pStale]).bind
      (fun st => jsGet st.planes 0)).map (fun m => (m.uid, m.isDisposed))
      = some (1, true) := by decide

/-- C1 (amended): for every Tracked id with installed mesh `X` carrying a
material `M`, an update whose outline contains a missing/null point skips the
rebuild and leaves the Registry mapping the id to the very same object `X`
with material `M` retained — but `X` has already been disposed (geometry
released) by the time of the skip, because the dispose call precedes the
null-point check; the shared `mat` variable now holds `M`. -/
theorem c1_stale_update (st : XrState) (plane : DetectedPlane) (X : Mesh)
    (M : StandardMaterial)
    (hX : jsGet st.planes plane.id = some X)
    (hM : X.material = some M)
    (hstale : plane.polygonDefinition.any Option.isNone = true) :
    onPlaneUpdated st plane =
      some { st with mat := some M
                     planes := jsSet st.planes plane.id (disposeMesh X) } ∧
    jsGet (jsSet st.planes plane.id (disposeMesh X)) plane.id
      = some { X with isDisposed := true } := by
  constructor
  · simp [onPlaneUpdated, hX, hM, hstale, disposeCall]
  · exact jsGet_jsSet_self _ _ _

/-- C1 witness: the amended statement evaluated on the concrete tracked state
`stTracked` (id 0 holds `mesh0`) and the stale update `pStale`. -/
theorem c1_witness :
    onPlaneUpdated stTracked pStale =
      some { stTracked with
               mat := mesh0.material
               planes := jsSet stTracked.planes pStale.id (disposeMesh mesh0) } ∧
    jsGet (jsSet stTracked.planes pStale.id (disposeMesh mesh0)) pStale.id
      = some { mesh0 with isDisposed := true } :=
  c1_stale_update stTracked pStale mesh0
    { uid := 5, alpha := 35 / 100, diffuseColor := 3 } rfl rfl rfl

/-! ### C2 — update for an id that was never added -/

/-- C2: the claim states that a `PlaneUpdated` for an Untracked id is a no-op
that never crashes.  The handler instead dereferences
`this._planes[plane.id].material` with `this._planes[plane.id]` being
`undefined`, which throws a `TypeError` (modelled by `none`): here, an update
for id 0 against the initial empty registry. -/
theorem c2_update_untracked_crashes :
    onPlaneUpdated initialState pA = none := rfl

/-! ### C3 — session re-initialization -/

/-- C3 counterexample.  The claim states that `SessionReinitialized` leaves
the mapping empty for every previously tracked id, including sparse id
spaces.  Reachable run: `Added(pA)` (id 0), `Added(pB)` (id 2, leaving a hole
at index 1), then the session event.  `while (this._planes.pop());` stops at
the hole, so id 0 — previously tracked, mesh uid 1 — is still mapped (to its
now-disposed mesh). -/
theorem c3_counterexample :
    ((run csId initialState
        [XrEvent.added pA, XrEvent.added pB, XrEvent.sessionInit]).bind
      (fun st => jsGet st.planes 0)).map (fun m => (m.uid, m.isDisposed))
      = some (1, true) := by decide

/-- C3 (amended): the session handler disposes every tracked mesh (any entry
still mapped afterwards is disposed); the mapping is emptied completely
whenever the `_planes` array has no holes; and a subsequent `PlaneAdded` for
a previously-used id re-enters Tracked with a brand-new material, whose
identity differs from every material present before the reset. -/
theorem c3_session_reset (cs : Nat → Nat) (st : XrState) (p : DetectedPlane) :
    (∀ i m, jsGet (onXRSessionInit st).planes i = some m → m.isDisposed = true) ∧
    ((∀ o ∈ st.planes, o.isSome) → (onXRSessionInit st).planes = []) ∧
    (GoodOutline p →
      ∃ st2 m2 M2, onPlaneAdded cs (onXRSessionInit st) p = some st2 ∧
        jsGet st2.planes p.id = some m2 ∧ m2.material = some M2 ∧
        M2.uid = st.fresh ∧
        ∀ i m0 M0, jsGet st.planes i = some m0 → m0.material = some M0 →
          M0.uid < st.fresh → M2.uid ≠ M0.uid) := by
  refine ⟨?_, ?_, ?_⟩
  · intro i m h
    have h1 := mem_of_mem_jsPopAll _ _ (mem_of_jsGet _ _ _ h)
    obtain ⟨o, ho, hom⟩ := List.mem_map.1 h1
    cases o with
    | none => simp at hom
    | some m0 =>
      have hom1 : some (disposeMesh m0) = some m := hom
      rw [← Option.some.injEq _ _ |>.mp hom1]
      rfl
  · intro h
    show jsPopAll _ = []
    apply jsPopAll_of_dense
    intro o ho
    obtain ⟨o0, ho0, rfl⟩ := List.mem_map.1 ho
    cases o0 with
    | none => simpa using h none ho0
    | some m0 => rfl
  · intro hg
    obtain ⟨st2, m2, hadd, hget, hm2, -⟩ := onPlaneAdded_good cs (onXRSessionInit st) p hg
    exact ⟨st2, m2, _, hadd, hget, hm2, rfl,
      fun i m0 M0 h1 h2 h3 => Nat.ne_of_gt h3⟩

/-- C3 witness: the amended statement evaluated on the dense tracked state
`stTracked` and a re-add of id 0. -/
theorem c3_witness :
    ((onXRSessionInit stTracked).planes = []) ∧
    (∃ st2 m2 M2, onPlaneAdded csId (onXRSessionInit stTracked) pA = some st2 ∧
      jsGet st2.planes pA.id = some m2 ∧ m2.material = some M2 ∧
      M2.uid = stTracked.fresh ∧
      ∀ i m0 M0, jsGet stTracked.planes i = some m0 → m0.material = some M0 →
        M0.uid < stTracked.fresh → M2.uid ≠ M0.uid) := by
  have h := c3_session_reset csId stTracked pA
  exact ⟨h.2.1 (by decide), h.2.2 (by decide)⟩

/-! ### C4 — removal -/

/-- C4 counterexample.  The claim states that `PlaneRemoved` on a tracked id
disposes the mesh fully (geometry and material) and removes the id-to-mesh
mapping.  After `Added(pA)` then `Removed(pA)`, id 0 is still mapped (to the
disposed mesh, whose material reference is still attached), and no material
has been disposed (`dispose()` is called with its material flag defaulted to
false): the mapping is not removed and the material not destroyed. -/
theorem c4_counterexample :
    ((run csId initialState [XrEvent.added pA, XrEvent.removed pA]).map
      (fun st => ((jsGet st.planes 0).map fun m => (m.isDisposed, m.material.isSome)
                  , st.disposedMats)))
      = some (some (true, true), []) := by decide

/-- C4 (amended): `PlaneRemoved` on a tracked id marks the mesh disposed
(geometry only — the material is not disposed) and leaves the id still
mapped to that disposed mesh; on an untracked id it is a no-op; applying it
twice in a row never raises an error and the second application changes
nothing — but a dangling mapping entry (the disposed mesh) does remain. -/
theorem c4_removed_behaviour (st : XrState) (p : DetectedPlane) :
    (jsGet st.planes p.id = none → onPlaneRemoved st p = some st) ∧
    (∀ X, jsGet st.planes p.id = some X →
      onPlaneRemoved st p
        = some { st with planes := jsSet st.planes p.id (disposeMesh X) } ∧
      jsGet (jsSet st.planes p.id (disposeMesh X)) p.id
        = some { X with isDisposed := true } ∧
      (disposeCall st p.id X false).disposedMats = st.disposedMats) ∧
    (∀ st1, onPlaneRemoved st p = some st1 → onPlaneRemoved st1 p = some st1) := by
  refine ⟨?_, ?_, ?_⟩
  · intro h
    simp [onPlaneRemoved, h]
  · intro X h
    refine ⟨by simp [onPlaneRemoved, h, disposeCall], jsGet_jsSet_self _ _ _,
      by simp [disposeCall]⟩
  · intro st1 h
    cases hj : jsGet st.planes p.id with
    | none =>
      simp only [onPlaneRemoved, hj, Option.some.injEq] at h
      subst h
      simp [onPlaneRemoved, hj]
    | some X =>
      simp only [onPlaneRemoved, hj, Option.some.injEq] at h
      subst h
      have hj1 : jsGet (disposeCall st p.id X false).planes p.id
          = some (disposeMesh X) := by
        simp only [disposeCall, if_neg Bool.false_ne_true]
        exact jsGet_jsSet_self _ _ _
      simp only [onPlaneRemoved, hj1, Option.some.injEq]
      show disposeCall (disposeCall st p.id X false) p.id (disposeMesh X) false
        = disposeCall st p.id X false
      simp only [disposeCall, if_neg Bool.false_ne_true]
      have : disposeMesh (disposeMesh X) = disposeMesh X := rfl
      rw [this, jsSet_jsSet]

/-- C4 witness: the amended statement evaluated on the tracked state
`stTracked`: the removal of id 0 and its repetition. -/
theorem c4_witness :
    onPlaneRemoved stTracked pA
      = some { stTracked with
                 planes := jsSet stTracked.planes pA.id (disposeMesh mesh0) } ∧
    onPlaneRemoved
        { stTracked with
            planes := jsSet stTracked.planes pA.id (disposeMesh mesh0) } pA
      = some { stTracked with
                 planes := jsSet stTracked.planes pA.id (disposeMesh mesh0) } := by
  have h := c4_removed_behaviour stTracked pA
  have h2 := (h.2.1 mesh0 rfl).1
  exact ⟨h2, h.2.2 _ h2⟩

/-! ### Further helper lemmas about the update handler -/

theorem goodOutline_any_false (p : DetectedPlane) (hg : GoodOutline p) :
    p.polygonDefinition.any Option.isNone = false := by
  cases h : p.polygonDefinition.any Option.isNone with
  | false => rfl
  | true =>
    obtain ⟨o, ho, hno⟩ := List.any_eq_true.mp h
    have := hg.2 o ho
    cases o with
    | none => simp at this
    | some v => simp at hno

/-- The stale branch of the update handler: the mesh currently stored for the
id is disposed (and its material saved in the shared `mat`) before the
null-point test makes the handler return. -/
theorem onPlaneUpdated_stale (st : XrState) (p : DetectedPlane) (X : Mesh)
    (M : StandardMaterial)
    (hX : jsGet st.planes p.id = some X) (hM : X.material = some M)
    (hany : p.polygonDefinition.any Option.isNone = true) :
    onPlaneUpdated st p
      = some { st with mat := some M
                       planes := jsSet st.planes p.id (disposeMesh X) } := by
  simp [onPlaneUpdated, hX, hM, hany, disposeCall]

/-- The rebuild branch of the update handler: the state handed to
`initPolygon` already contains the disposed predecessor and the retained
material. -/
theorem onPlaneUpdated_rebuild (st : XrState) (p : DetectedPlane) (X : Mesh)
    (M : StandardMaterial)
    (hX : jsGet st.planes p.id = some X) (hM : X.material = some M)
    (hany : p.polygonDefinition.any Option.isNone = false) :
    onPlaneUpdated st p
      = (initPolygon
          { st with mat := some M
                    planes := jsSet st.planes p.id (disposeMesh X) }
          p (some M)).map (·.state) := by
  simp [onPlaneUpdated, hX, hM, hany, disposeCall]

/-- An update for a tracked id whose mesh carries a material and whose outline
is nonempty always succeeds and keeps exactly one mesh, with the same
material, installed for that id. -/
theorem onPlaneUpdated_tracked (st : XrState) (p : DetectedPlane) (X : Mesh)
    (hX : jsGet st.planes p.id = some X) (hXm : X.material.isSome = true)
    (hne : p.polygonDefinition ≠ []) :
    ∃ st', onPlaneUpdated st p = some st' ∧
      ∃ m', jsGet st'.planes p.id = some m' ∧ m'.material = X.material := by
  obtain ⟨M, hM⟩ := Option.isSome_iff_exists.mp hXm
  cases hany : p.polygonDefinition.any Option.isNone with
  | true =>
    refine ⟨_, onPlaneUpdated_stale st p X M hX hM hany, disposeMesh X, ?_, ?_⟩
    · exact jsGet_jsSet_self _ _ _
    · rfl
  | false =>
    have hall : ∀ o ∈ p.polygonDefinition, o.isSome := by
      intro o ho
      cases o with
      | some v => rfl
      | none =>
        have : p.polygonDefinition.any Option.isNone = true :=
          List.any_eq_true.mpr ⟨none, ho, rfl⟩
        rw [hany] at this
        exact absurd this (by simp)
    obtain ⟨b, hb⟩ := initPolygon_of_good
      { st with mat := some M
                planes := jsSet st.planes p.id (disposeMesh X) }
      p (some M) ⟨hne, hall⟩
    obtain ⟨hplanes, -, -, -, -, -, hmat, -⟩ := initPolygon_inv _ _ _ _ hb
    refine ⟨b.state, ?_, b.polygon, ?_, ?_⟩
    · rw [onPlaneUpdated_rebuild st p X M hX hM hany, hb]; rfl
    · rw [hplanes]
      exact jsGet_jsSet_self _ _ _
    · rw [hmat, hM]

/-- Processing any sequence of nonempty-outline updates for a tracked id with
a material keeps it tracked with a material. -/
theorem run_updates_tracked (cs : Nat → Nat) (i : Nat) :
    ∀ evs st, UpdatesFor i evs →
      (∃ X, jsGet st.planes i = some X ∧ X.material.isSome = true) →
      ∃ st', run cs st evs = some st' ∧
        ∃ m', jsGet st'.planes i = some m' ∧ m'.material.isSome = true := by
  intro evs
  induction evs with
  | nil => intro st _ h; exact ⟨st, rfl, h⟩
  | cons e es ih =>
    intro st hup hX
    obtain ⟨p, rfl, hpid, hne⟩ := hup e (List.mem_cons_self _ _)
    subst hpid
    obtain ⟨X, hX1, hX2⟩ := hX
    obtain ⟨st1, hst1, m', hm'1, hm'2⟩ := onPlaneUpdated_tracked st p X hX1 hX2 hne
    obtain ⟨st', hrun, hfin⟩ := ih st1
      (fun e' he' => hup e' (List.mem_cons_of_mem _ he'))
      ⟨m', hm'1, by rw [hm'2]; exact hX2⟩
    refine ⟨st', ?_, hfin⟩
    simp [run, step, hst1, hrun]

/-! ### C5 — at-most-one-mesh invariant -/

/-- C5 counterexample.  The claim quantifies over every sequence of
`PlaneAdded`/`PlaneUpdated` events for a given id, and the spec's data model
allows an update's outline to be empty during transient updates.  On the
sequence `Added(pA)` then `Updated(pEmpty)` (both for id 0) processing does
not leave the Registry holding a mesh for the id: the empty outline passes
the null-point test (`[].some(p => !p)` is false), the already-disposed mesh
is dropped, and `initPolygon` pushes `undefined` as the closing point and
then throws a `TypeError` mapping it (`p.x` of `undefined`) — the run
aborts. -/
theorem c5_counterexample :
    run csId initialState [XrEvent.added pA, XrEvent.updated pEmpty]
      = none := by decide

/-- C5 (amended): for every sequence of `PlaneAdded`/`PlaneUpdated` events
for a given id in which the add carries a well-formed outline and each
update a nonempty outline (an empty-outline update instead crashes the
handler, see the counterexample), processing succeeds and afterwards the
Registry holds exactly one mesh for that id (the single array slot
`_planes[id]` is populated; slots are unique per id by construction), and
whenever an update replaces the installed mesh, the handler passes the
builder a state in which the replaced mesh has already been disposed —
geometry released before the new mapping is stored — with its material
retained for the new mesh. -/
theorem c5_at_most_one_mesh (cs : Nat → Nat) (p : DetectedPlane)
    (evs : List XrEvent) (hg : GoodOutline p) (hup : UpdatesFor p.id evs)
    (st : XrState) :
    (∃ st', run cs st (XrEvent.added p :: evs) = some st' ∧
      ∃ m, jsGet st'.planes p.id = some m ∧ m.material.isSome = true) ∧
    (∀ st0 X M q, jsGet st0.planes q.id = some X → X.material = some M →
      q.polygonDefinition.any Option.isNone = false →
      onPlaneUpdated st0 q
        = (initPolygon
            { st0 with mat := some M
                       planes := jsSet st0.planes q.id (disposeMesh X) }
            q (some M)).map (·.state)) := by
  constructor
  · obtain ⟨st2, m2, hadd, hget, hm2, -⟩ := onPlaneAdded_good cs st p hg
    obtain ⟨st', hrun, hfin⟩ := run_updates_tracked cs p.id evs st2 hup
      ⟨m2, hget, by rw [hm2]; rfl⟩
    refine ⟨st', ?_, hfin⟩
    simp [run, step, hadd, hrun]
  · intro st0 X M q h1 h2 h3
    exact onPlaneUpdated_rebuild st0 q X M h1 h2 h3

/-- C5 witness: the sequence `Added(pA)` then `Updated(pA2)` for id 0, from
the initial state. -/
theorem c5_witness :
    ∃ st', run csId initialState [XrEvent.added pA, XrEvent.updated pA2] = some st' ∧
      ∃ m, jsGet st'.planes pA.id = some m ∧ m.material.isSome = true := by
  have hup : UpdatesFor pA.id [XrEvent.updated pA2] := by
    intro e he
    rw [List.mem_singleton] at he
    subst he
    exact ⟨pA2, rfl, rfl, by decide⟩
  exact (c5_at_most_one_mesh csId pA [XrEvent.updated pA2] (by decide) hup
    initialState).1

/-! ### C6 — material policy -/

/-- C6: `PlaneAdded` always installs a mesh whose material is freshly
constructed (its identity is new — distinct from every material attached to
any previously registered mesh), with `alpha = 0.35` and with the colour
drawn from the engine's random-colour source at that call; and a subsequent
`PlaneUpdated` with a well-formed outline for the same id yields a tracked
mesh whose material is reference-equal (same identity, same value) to that
material — the update never re-randomizes. -/
theorem c6_material_policy (cs : Nat → Nat) (st : XrState) (p q : DetectedPlane)
    (hp : GoodOutline p) (hq : GoodOutline q) (hqid : q.id = p.id)
    (hfresh : ∀ i m0 M0, jsGet st.planes i = some m0 → m0.material = some M0 →
      M0.uid < st.fresh) :
    ∃ st1 m1 M, onPlaneAdded cs st p = some st1 ∧
      jsGet st1.planes p.id = some m1 ∧ m1.material = some M ∧
      M.alpha = 35 / 100 ∧ M.diffuseColor = cs st.rngIdx ∧
      (∀ i m0 M0, jsGet st.planes i = some m0 → m0.material = some M0 →
        M.uid ≠ M0.uid) ∧
      ∃ st2 m2, onPlaneUpdated st1 q = some st2 ∧
        jsGet st2.planes p.id = some m2 ∧ m2.material = some M := by
  obtain ⟨st1, m1, hadd, hget, hm1, -, -, -, -, -⟩ := onPlaneAdded_good cs st p hp
  refine ⟨st1, m1, _, hadd, hget, hm1, rfl, rfl, ?_, ?_⟩
  · intro i m0 M0 h1 h2
    have := hfresh i m0 M0 h1 h2
    exact Nat.ne_of_gt this
  · have hget' : jsGet st1.planes q.id = some m1 := by rw [hqid]; exact hget
    obtain ⟨b, hb⟩ := initPolygon_of_good
      { st1 with mat := some { uid := st.fresh, alpha := 35 / 100
                               diffuseColor := cs st.rngIdx }
                 planes := jsSet st1.planes q.id (disposeMesh m1) }
      q (some { uid := st.fresh, alpha := 35 / 100, diffuseColor := cs st.rngIdx })
      hq
    obtain ⟨hplanes, -, -, -, -, -, hmat, -⟩ := initPolygon_inv _ _ _ _ hb
    refine ⟨b.state, b.polygon, ?_, ?_, hmat⟩
    · rw [onPlaneUpdated_rebuild st1 q m1 _ hget' hm1 (goodOutline_any_false q hq), hb]
      rfl
    · rw [hplanes, hqid]
      exact jsGet_jsSet_self _ _ _

/-- C6 witness: `Added(pA)` then `Updated(pA2)` from the empty initial
state. -/
theorem c6_witness :
    ∃ st1 m1 M, onPlaneAdded csId initialState pA = some st1 ∧
      jsGet st1.planes pA.id = some m1 ∧ m1.material = some M ∧
      M.alpha = 35 / 100 ∧ M.diffuseColor = csId initialState.rngIdx ∧
      (∀ i m0 M0, jsGet initialState.planes i = some m0 →
        m0.material = some M0 → M.uid ≠ M0.uid) ∧
      ∃ st2 m2, onPlaneUpdated st1 pA2 = some st2 ∧
        jsGet st2.planes pA.id = some m2 ∧ m2.material = some M := by
  apply c6_material_policy csId initialState pA pA2 (by decide) (by decide) rfl
  intro i m0 M0 h1 h2
  simp [initialState, jsGet] at h1

/-! ### C7 — degenerate outlines -/

/-- C7 counterexample.  The claim states that a 2-point outline makes the
build fail with `DegeneratePolygon`, installing no mesh and preserving prior
state.  Against the tracked state (id 0 holds `mesh0`, identity 7), building
the two-point plane `p2` succeeds, installs a new mesh (identity 8,
replacing the prior entry), with geometry being the closed two-point list —
no degenerate-input failure path exists in the code. -/
theorem c7_counterexample :
    ((initPolygon stTracked p2 none).map
      (fun b => ((jsGet b.state.planes 0).map (·.uid), b.polygon.geomPoints)))
      = some (some 8, [(0, 0), (1, 1), (0, 0)]) := by decide

/-- C7 (amended): the code performs no minimum-point check: a two-point
outline is closed by repeating its first point and handed to the engine's
polygon builder, and the resulting (possibly empty-geometry) mesh is
installed for the id, replacing any prior entry; there is no
`DegeneratePolygon` failure. -/
theorem c7_no_degenerate_check (st : XrState) (p : DetectedPlane)
    (m : Option StandardMaterial) (v0 v1 : Vector3)
    (h : p.polygonDefinition = [some v0, some v1]) :
    ∃ b, initPolygon st p m = some b ∧
      b.polygon.geomPoints = [projPt v0, projPt v1, projPt v0] ∧
      jsGet b.state.planes p.id = some b.polygon := by
  have hg : GoodOutline p := by
    constructor
    · rw [h]; simp
    · rw [h]
      intro o ho
      rcases List.mem_cons.1 ho with rfl | ho1
      · rfl
      · rcases List.mem_singleton.1 ho1 with rfl
        rfl
  obtain ⟨b, hb⟩ := initPolygon_of_good st p m hg
  obtain ⟨hplanes, -, -, -, -, -, -, -, -, -, -, -, -, -, -, -, hmap, -⟩ :=
    initPolygon_inv _ _ _ _ hb
  refine ⟨b, hb, ?_, by rw [hplanes]; exact jsGet_jsSet_self _ _ _⟩
  rw [h] at hmap
  have hred : mapNonNull ([some v0, some v1] ++ [jsGet [some v0, some v1] 0])
      = some [projPt v0, projPt v1, projPt v0] := rfl
  rw [hred] at hmap
  exact (Option.some.injEq _ _ |>.mp hmap).symm

/-- C7 witness: the amended statement at the concrete two-point plane `p2`
against the tracked state. -/
theorem c7_witness :
    ∃ b, initPolygon stTracked p2 none = some b ∧
      b.polygon.geomPoints
        = [projPt ⟨0, 0, 0⟩, projPt ⟨1, 0, 1⟩, projPt ⟨0, 0, 0⟩] ∧
      jsGet b.state.planes p2.id = some b.polygon :=
  c7_no_degenerate_check stTracked p2 none ⟨0, 0, 0⟩ ⟨1, 0, 1⟩ rfl

/-! ### C8 — build contract -/

/-- C8 counterexample.  The claim states the built mesh is flat with zero
extrusion depth; the source calls `build(false, 0.01)`, so the depth is
0.01, not zero. -/
theorem c8_counterexample :
    ((initPolygon initialState pA none).map (fun b => b.polygon.depth))
      = some (1 / 100) ∧ ((1 : Rat) / 100) ≠ 0 :=
  ⟨rfl, by norm_num⟩

/-- C8 (amended): for every well-formed outline and placement the built mesh
closes the outline by repeating its first point, triangulates exactly those
closed points, extrudes with depth 0.01 (near-flat, not zero), computes
vertex normals, takes its scale, rotation and position directly from the
decomposed placement transform, and is collidable and a shadow receiver. -/
theorem c8_build_contract (st : XrState) (p : DetectedPlane)
    (m : Option StandardMaterial) (hg : GoodOutline p) :
    ∃ b, initPolygon st p m = some b ∧
      b.planeAfter.polygonDefinition
        = p.polygonDefinition ++ [jsGet p.polygonDefinition 0] ∧
      mapNonNull b.planeAfter.polygonDefinition = some b.polygon.geomPoints ∧
      b.polygon.depth = 1 / 100 ∧
      b.polygon.hasNormals = true ∧
      b.polygon.material = m ∧
      b.polygon.scaling = p.transformationMatrix.scaling ∧
      b.polygon.rotationQuaternion = p.transformationMatrix.rotation ∧
      b.polygon.position = p.transformationMatrix.position ∧
      b.polygon.checkCollisions = true ∧
      b.polygon.receiveShadows = true := by
  obtain ⟨b, hb⟩ := initPolygon_of_good st p m hg
  obtain ⟨h1, h2, h3, h4, h5, h6, h7, h8, h9, h10, h11, h12, h13, h14, h15,
    h16, h17, h18⟩ := initPolygon_inv _ _ _ _ hb
  exact ⟨b, hb, h18, by rw [h18]; exact h17, h8, h9, h7, h13, h14, h15, h11, h12⟩

/-- C8 witness: the amended contract at the concrete plane `pA`. -/
theorem c8_witness :
    ∃ b, initPolygon initialState pA none = some b ∧
      b.planeAfter.polygonDefinition
        = pA.polygonDefinition ++ [jsGet pA.polygonDefinition 0] ∧
      mapNonNull b.planeAfter.polygonDefinition = some b.polygon.geomPoints ∧
      b.polygon.depth = 1 / 100 ∧
      b.polygon.hasNormals = true ∧
      b.polygon.material = none ∧
      b.polygon.scaling = pA.transformationMatrix.scaling ∧
      b.polygon.rotationQuaternion = pA.transformationMatrix.rotation ∧
      b.polygon.position = pA.transformationMatrix.position ∧
      b.polygon.checkCollisions = true ∧
      b.polygon.receiveShadows = true :=
  c8_build_contract initialState pA none (by decide)

/-! ### C9 — build side effects -/

/-- C9 counterexample.  The claim states the build has no side effect beyond
returning the mesh — in particular that it neither writes the Registry nor
mutates the input record.  From the empty initial registry (0 entries) and
the 3-point plane `pA`, `initPolygon` leaves the registry with 1 entry (it
performs `this._planes[plane.id] = polygon` itself) and leaves the
detector-owned outline grown to 4 points (it pushes the closing point onto
`plane.polygonDefinition` in place). -/
theorem c9_counterexample :
    ((initPolygon initialState pA none).map
      (fun b => (b.state.planes.length, b.planeAfter.polygonDefinition.length)))
      = some (1, 4) := by decide

/-- C9 (amended): besides returning the built mesh, `initPolygon` itself
writes the id-to-mesh Registry mapping, and it mutates the input
`DetectedPlane` record by appending the closing point to its outline (so the
record is not left unchanged). -/
theorem c9_build_side_effects (st : XrState) (p : DetectedPlane)
    (m : Option StandardMaterial) (b : BuildResult)
    (h : initPolygon st p m = some b) :
    b.state.planes = jsSet st.planes p.id b.polygon ∧
    jsGet b.state.planes p.id = some b.polygon ∧
    b.planeAfter.polygonDefinition
      = p.polygonDefinition ++ [jsGet p.polygonDefinition 0] ∧
    b.planeAfter.polygonDefinition ≠ p.polygonDefinition := by
  obtain ⟨h1, -, -, -, -, -, -, -, -, -, -, -, -, -, -, -, -, h18⟩ :=
    initPolygon_inv _ _ _ _ h
  refine ⟨h1, by rw [h1]; exact jsGet_jsSet_self _ _ _, h18, ?_⟩
  rw [h18]
  intro heq
  have hlen := congrArg List.length heq
  simp at hlen

/-- C9 witness: the amended statement at the concrete plane `pA` from the
initial state. -/
theorem c9_witness :
    ∃ b, initPolygon initialState pA none = some b ∧
      (b.state.planes = jsSet initialState.planes pA.id b.polygon ∧
       jsGet b.state.planes pA.id = some b.polygon ∧
       b.planeAfter.polygonDefinition
         = pA.polygonDefinition ++ [jsGet pA.polygonDefinition 0] ∧
       b.planeAfter.polygonDefinition ≠ pA.polygonDefinition) := by
  cases hb : initPolygon initialState pA none with
  | none => exact absurd hb (by decide)
  | some b => exact ⟨b, rfl, c9_build_side_effects initialState pA none b hb⟩

/-! ### C10 — per-id independence -/

theorem onPlaneAdded_planes (cs : Nat → Nat) (st : XrState) (p : DetectedPlane)
    (st' : XrState) (h : onPlaneAdded cs st p = some st') :
    ∃ mesh, st'.planes = jsSet st.planes p.id mesh := by
  simp only [onPlaneAdded, Option.map_eq_some'] at h
  obtain ⟨b, hb, hst⟩ := h
  have hpl := (initPolygon_inv _ _ _ _ hb).1
  exact ⟨b.polygon, by rw [← hst, hpl]⟩

theorem onPlaneRemoved_planes (st : XrState) (p : DetectedPlane)
    (st' : XrState) (h : onPlaneRemoved st p = some st') (j : Nat)
    (hj : j ≠ p.id) : jsGet st'.planes j = jsGet st.planes j := by
  simp only [onPlaneRemoved] at h
  cases hX : jsGet st.planes p.id with
  | none => simp only [hX, Option.some.injEq] at h; subst h; rfl
  | some X =>
    simp only [hX, Option.some.injEq] at h
    subst h
    simp only [disposeCall, if_neg Bool.false_ne_true]
    exact jsGet_jsSet_ne _ _ _ _ hj.symm

theorem onPlaneUpdated_planes (st : XrState) (p : DetectedPlane)
    (st' : XrState) (h : onPlaneUpdated st p = some st') (j : Nat)
    (hj : j ≠ p.id) : jsGet st'.planes j = jsGet st.planes j := by
  simp only [onPlaneUpdated] at h
  cases hX : jsGet st.planes p.id with
  | none => rw [hX] at h; exact absurd h (by simp)
  | some X =>
    simp only [hX] at h
    cases hm : X.material with
    | some M =>
      simp only [hm] at h
      split at h
      · simp only [Option.some.injEq] at h
        subst h
        simp only [disposeCall, if_neg Bool.false_ne_true]
        exact jsGet_jsSet_ne _ _ _ _ hj.symm
      · simp only [Option.map_eq_some'] at h
        obtain ⟨b, hb, hst⟩ := h
        have hpl := (initPolygon_inv _ _ _ _ hb).1
        rw [← hst, hpl]
        simp only [disposeCall, if_neg Bool.false_ne_true]
        rw [jsGet_jsSet_ne _ _ _ _ hj.symm]
        exact jsGet_jsSet_ne _ _ _ _ hj.symm
    | none =>
      simp only [hm] at h
      split at h
      · simp only [Option.some.injEq] at h
        subst h
        rfl
      · simp only [Option.map_eq_some'] at h
        obtain ⟨b, hb, hst⟩ := h
        have hpl := (initPolygon_inv _ _ _ _ hb).1
        rw [← hst, hpl]
        exact jsGet_jsSet_ne _ _ _ _ hj.symm

/-- C10 counterexample.  The claim states the resulting mesh/registry content
for a given id is the same for any two event sequences that differ only in
events for other ids.  The sequences `[Added(pA), SessionReinit]` and
`[Added(pA), Added(pB), SessionReinit]` differ only in the event for id 2;
after the first, id 0 is unmapped, while after the second the hole left at
index 1 stops the clearing loop and id 0 is still mapped: outcomes for id 0
depend on id 2's events. -/
theorem c10_counterexample :
    ((run csId initialState [XrEvent.added pA, XrEvent.sessionInit]).bind
      (fun st => jsGet st.planes 0)) = none ∧
    ((run csId initialState
        [XrEvent.added pA, XrEvent.added pB, XrEvent.sessionInit]).bind
      (fun st => jsGet st.planes 0)).isSome = true :=
  ⟨by decide, by decide⟩

/-- C10 (amended): processing of `Added`/`Updated`/`Removed` notifications is
per-id local — an event for a different id never changes the registry entry
of the given id — and the one shared mutable variable (`mat`) has no
influence on the update of a tracked id whose mesh carries a material (the
handler re-reads the material from that id's own mesh).  Independence fails
only through `SessionReinitialized`, whose sparse-array clearing couples ids
(see the counterexample). -/
theorem c10_per_id_independence (cs : Nat → Nat) (i : Nat) :
    (∀ st st' e, eventId e ≠ some i → e ≠ XrEvent.sessionInit →
      step cs st e = some st' → jsGet st'.planes i = jsGet st.planes i) ∧
    (∀ st m0 q X M, jsGet st.planes q.id = some X → X.material = some M →
      onPlaneUpdated { st with mat := m0 } q = onPlaneUpdated st q) := by
  constructor
  · intro st st' e hne hns hstep
    cases e with
    | added p =>
      have hpid : p.id ≠ i := fun he => hne (by rw [eventId, he])
      obtain ⟨mesh, hmesh⟩ := onPlaneAdded_planes cs st p st' hstep
      rw [hmesh]
      exact jsGet_jsSet_ne _ _ _ _ hpid
    | updated p =>
      have hpid : p.id ≠ i := fun he => hne (by rw [eventId, he])
      exact onPlaneUpdated_planes st p st' hstep i (fun he => hpid he.symm)
    | removed p =>
      have hpid : p.id ≠ i := fun he => hne (by rw [eventId, he])
      exact onPlaneRemoved_planes st p st' hstep i (fun he => hpid he.symm)
    | sessionInit => exact absurd rfl hns
  · intro st m0 q X M hX hM
    have hX' : jsGet ({ st with mat := m0 } : XrState).planes q.id = some X := hX
    cases hany : q.polygonDefinition.any Option.isNone with
    | true =>
      rw [onPlaneUpdated_stale _ q X M hX' hM hany,
        onPlaneUpdated_stale st q X M hX hM hany]
    | false =>
      rw [onPlaneUpdated_rebuild _ q X M hX' hM hany,
        onPlaneUpdated_rebuild st q X M hX hM hany]

/-- C10 witness: id 0's entry is untouched by an add for id 2, and the shared
`mat` variable's content does not change the update of tracked id 0. -/
theorem c10_witness :
    jsGet ((onPlaneAdded csId stTracked pB).getD initialState).planes 0
      = jsGet stTracked.planes 0 ∧
    onPlaneUpdated
        { stTracked with mat := some { uid := 9, alpha := 1, diffuseColor := 0 } }
        pA2
      = onPlaneUpdated stTracked pA2 := by
  constructor
  · exact (c10_per_id_independence csId 0).1 stTracked
      ((onPlaneAdded csId stTracked pB).getD initialState) (XrEvent.added pB)
      (by decide) (by decide) rfl
  · exact (c10_per_id_independence csId 0).2 stTracked
      (some { uid := 9, alpha := 1, diffuseColor := 0 }) pA2 mesh0
      { uid := 5, alpha := 35 / 100, diffuseColor := 3 } rfl rfl

end XrSync
